import Mathlib

/-!
# Verification of the locness-fluorologger gain, calibration and cycle logic

Shallow embedding of the fluorologger's core logic:

* `Fluorometer` (from `src/fluorologger/fluorometer.py`): gain decision
  (`determine_gain`), gain application (`set_gain`, `set_autogain`) and the
  two concentration-conversion models (`convert_to_conc_turner`,
  `convert_to_concentration_3pt`) together with the model-selection logic
  (`convert_to_concentration`).
* `Main.Fluor` and `Main.log_rho` (from `src/fluorologger/main.py`): the
  acquisition cycle with its sink writes and exception flow.
* `ensure_database_ready` (from `src/fluorologger/main.py`): the database
  readiness check, including Python name resolution of the global it reads.
* `read_GPS` (from `src/fluorologger/gps.py`): the GGA-scanning read loop.
* `Fluorimeter` (from `src/fluorologger/fluorimeter.py`, the legacy
  variant): its gain decision and gain application, including the unbound
  local names those methods trip over.

Python floats are embedded as `ℚ` (the thresholds 0.15 and 2.25 and all
calibration arithmetic are treated exactly); Python division is embedded as
`ℚ` division. Exceptions are embedded as `Except PyExc`; side effects
(digital-line writes, sleeps, sink writes, commits) are embedded as explicit
`Eff` lists in the order the code performs them.
-/

/-- Python exception kinds that can arise in the embedded code paths. -/
inductive PyExc where
  | nameError
  | operationalError
  | typeError
  | valueError
  | unboundLocalError
  | daqError
  deriving DecidableEq

/-- Observable side effects of the embedded code, in program order:
digital-line writes and sleeps from the gain driver, and the per-cycle sink
writes of `log_rho` (an `Eff` is recorded when the corresponding call is
attempted, whether or not it then raises). -/
inductive Eff where
  | writeLines (line0 line1 : Bool)
  | sleep (seconds : ℚ)
  | gpsInsert
  | logGpsError
  | logInfo
  | csvAppend
  | rhoInsert
  | logRhoError
  | commit
  | scheduleNext
  deriving DecidableEq

/-- The `Fluorometer` object of `src/fluorologger/fluorometer.py`.
Constructor keyword arguments default to `None`, embedded as `Option ℚ`
fields; `autogain`, `gain` and `last_gain_change` are the mutable gain
state. The DAQ task handles are external collaborators and carry no data. -/
structure Fluorometer where
  slope_1x : Option ℚ
  slope_10x : Option ℚ
  slope_100x : Option ℚ
  offset_1x : Option ℚ
  offset_10x : Option ℚ
  offset_100x : Option ℚ
  std_concentration : Option ℚ
  std_voltage : Option ℚ
  std_gain : Option ℚ
  blank_1x : Option ℚ
  blank_10x : Option ℚ
  blank_100x : Option ℚ
  autogain : Bool
  gain : ℤ
  last_gain_change : ℚ
  deriving DecidableEq

/-- Embeds `self.gain_change_delay = 3` — seconds to delay reading after a gain
change; fixed at construction in the source. -/
def gain_change_delay : ℚ := 3

/-- Embeds `Fluorometer.determine_gain` (fluorometer.py lines 133–150; the
`Fluorometer.determine_gain` in main.py lines 123–140 has the identical
body): if autogain is disabled return the configured gain; otherwise, only
once the settling delay has elapsed, step the gain up when the averaged
voltage is below 0.15 V and down when it is above 2.25 V. -/
def Fluorometer.determine_gain (f : Fluorometer) (avg_voltage current_time : ℚ) : ℤ :=
  if f.autogain = false then f.gain
  else if gain_change_delay ≤ current_time - f.last_gain_change then
    if avg_voltage < 0.15 then
      (if f.gain = 1 then 10 else 100)
    else if 2.25 < avg_voltage then
      (if f.gain = 100 then 10 else 1)
    else f.gain
  else f.gain

/-- Embeds `Fluorometer.set_gain` (fluorometer.py lines 152–158): three independent
`if` statements, each writing one two-line bit pattern when the argument
matches; the method reads and writes no instance state, so it is embedded as
the list of digital-line writes it performs. -/
def Fluorometer.set_gain (gain : ℤ) : List Eff :=
  (if gain = 1 then [Eff.writeLines true true] else []) ++
  (if gain = 10 then [Eff.writeLines false true] else []) ++
  (if gain = 100 then [Eff.writeLines true false] else [])

/-- Embeds `Fluorometer.set_autogain` (fluorometer.py lines 160–167): decide the
gain from the voltage; when it differs from the current gain, update
`gain` and `last_gain_change`, drive the digital lines, and sleep for the
settling delay; otherwise do nothing. -/
def Fluorometer.set_autogain (f : Fluorometer) (avg_voltage current_time : ℚ) :
    Fluorometer × List Eff :=
  let new_gain := f.determine_gain avg_voltage current_time
  if new_gain ≠ f.gain then
    ({ f with gain := new_gain, last_gain_change := current_time },
      Fluorometer.set_gain new_gain ++ [Eff.sleep gain_change_delay])
  else (f, [])

/-- Spec-side: "one level above `g`", saturating at ×100 (1→10, 10→100,
100→100). -/
def gainUp (g : ℤ) : ℤ :=
  if g = 1 then 10 else if g = 10 then 100 else 100

/-- Spec-side: "one level below `g`", saturating at ×1 (100→10, 10→1,
1→1). -/
def gainDown (g : ℤ) : ℤ :=
  if g = 100 then 10 else if g = 10 then 1 else 1

/-- Spec-side fixed lookup table from gain level to the two digital-line
booleans. -/
def gainLines (g : ℤ) : Option (Bool × Bool) :=
  if g = 1 then some (true, true)
  else if g = 10 then some (false, true)
  else if g = 100 then some (true, false)
  else none

/-- Embeds `Fluorometer.convert_to_conc_turner` (fluorometer.py lines 107–131).
The standard-ratio (Turner S-0243) conversion: pick the calibration blank
from `std_gain` (an unrecognized standard gain raises `ValueError`), then
branch on the current gain. Python arithmetic on a missing (`None`)
parameter raises `TypeError`, embedded by the catch-all match arms; Python
division is embedded as total `ℚ` division (a zero denominator, which Python
would turn into `ZeroDivisionError`, is not exercised by any claim). -/
def Fluorometer.convert_to_conc_turner (f : Fluorometer) (voltage : ℚ) : Except PyExc ℚ :=
  let calBlank : Except PyExc (Option ℚ) :=
    if f.std_gain = some 1 then Except.ok f.blank_1x
    else if f.std_gain = some 10 then Except.ok f.blank_10x
    else if f.std_gain = some 100 then Except.ok f.blank_100x
    else Except.error PyExc.valueError
  match calBlank with
  | Except.error e => Except.error e
  | Except.ok cal_blank =>
    if f.gain = 1 then
      match f.blank_1x, f.std_concentration, f.std_voltage, cal_blank, f.std_gain with
      | some b, some sc, some sv, some cb, some sg =>
          Except.ok ((voltage - b) * sc / (sv - cb) / sg)
      | _, _, _, _, _ => Except.error PyExc.typeError
    else if f.gain = 10 then
      match f.blank_10x, f.std_concentration, f.std_voltage, cal_blank, f.std_gain with
      | some b, some sc, some sv, some cb, some sg =>
          Except.ok ((voltage - b) / 10 * sc / (sv - cb) / sg)
      | _, _, _, _, _ => Except.error PyExc.typeError
    else if f.gain = 100 then
      match f.blank_100x, f.std_concentration, f.std_voltage, cal_blank, f.std_gain with
      | some b, some sc, some sv, some cb, some sg =>
          Except.ok ((voltage - b) / 100 * sc / (sv - cb) / sg)
      | _, _, _, _, _ => Except.error PyExc.typeError
    else Except.error PyExc.valueError

/-- Embeds `Fluorometer.convert_to_concentration_3pt` (fluorometer.py lines 92–105):
per-gain linear conversion `slope * voltage * 1000 + offset`. A gain outside
{1, 10, 100} leaves the local variable unassigned and the final `return`
raises `UnboundLocalError`; a `None` slope or offset raises `TypeError` in
the arithmetic. -/
def Fluorometer.convert_to_concentration_3pt (f : Fluorometer) (voltage : ℚ) :
    Except PyExc ℚ :=
  if f.gain = 1 then
    match f.slope_1x, f.offset_1x with
    | some s, some o => Except.ok (s * voltage * 1000 + o)
    | _, _ => Except.error PyExc.typeError
  else if f.gain = 10 then
    match f.slope_10x, f.offset_10x with
    | some s, some o => Except.ok (s * voltage * 1000 + o)
    | _, _ => Except.error PyExc.typeError
  else if f.gain = 100 then
    match f.slope_100x, f.offset_100x with
    | some s, some o => Except.ok (s * voltage * 1000 + o)
    | _, _ => Except.error PyExc.typeError
  else Except.error PyExc.unboundLocalError

/-- Python truthiness of an optional numeric attribute: `None` is falsy and
so is a zero value (`if self.std_concentration and self.std_voltage:`). -/
def truthy : Option ℚ → Bool
  | none => false
  | some x => decide (x ≠ 0)

/-- Embeds `Fluorometer.convert_to_concentration` (fluorometer.py lines 78–90):
pick the conversion method from attribute truthiness — standard-ratio when
`std_concentration` and `std_voltage` are truthy, else three-point when the
three slopes are truthy, else raise `ValueError`. -/
def Fluorometer.convert_to_concentration (f : Fluorometer) (voltage : ℚ) :
    Except PyExc ℚ :=
  if truthy f.std_concentration && truthy f.std_voltage then
    f.convert_to_conc_turner voltage
  else if truthy f.slope_1x && truthy f.slope_10x && truthy f.slope_100x then
    f.convert_to_concentration_3pt voltage
  else Except.error PyExc.valueError

/-- The two calibration models of the converter. -/
inductive CalModel where
  | turner
  | threePoint
  deriving DecidableEq

/-- The model `Fluorometer.convert_to_concentration` dispatches to: the same
conditions, in the same order, as the source's `if`/`elif`/`else`. -/
def Fluorometer.selected_model (f : Fluorometer) : Except PyExc CalModel :=
  if truthy f.std_concentration && truthy f.std_voltage then
    Except.ok CalModel.turner
  else if truthy f.slope_1x && truthy f.slope_10x && truthy f.slope_100x then
    Except.ok CalModel.threePoint
  else Except.error PyExc.valueError

/-- Spec-side: "all StandardRatio parameters are present" — all of
`std_concentration`, `std_voltage`, `std_gain` and the three blanks are
supplied (presence, not truthiness, so zero values count as present). -/
def stdRatioFull (f : Fluorometer) : Bool :=
  f.std_concentration.isSome && f.std_voltage.isSome && f.std_gain.isSome &&
  f.blank_1x.isSome && f.blank_10x.isSome && f.blank_100x.isSome

/-- Spec-side: the blank for a given gain level, `blank[g]`. -/
def blankFor (b1 b10 b100 g : ℚ) : ℚ :=
  if g = 1 then b1 else if g = 10 then b10 else b100

namespace Main

/-- The `Fluorometer` object defined inside `src/fluorologger/main.py`
(lines 55–160): mandatory slopes and offsets, 3-point conversion only, and
the same gain-control methods as fluorometer.py. -/
structure Fluor where
  slope_1x : ℚ
  slope_10x : ℚ
  slope_100x : ℚ
  offset_1x : ℚ
  offset_10x : ℚ
  offset_100x : ℚ
  autogain : Bool
  gain : ℤ
  last_gain_change : ℚ
  deriving DecidableEq

/-- Embeds `Fluorometer.determine_gain` of main.py (lines 123–140); body identical
to the fluorometer.py version. -/
def Fluor.determine_gain (m : Fluor) (avg_voltage current_time : ℚ) : ℤ :=
  if m.autogain = false then m.gain
  else if gain_change_delay ≤ current_time - m.last_gain_change then
    if avg_voltage < 0.15 then
      (if m.gain = 1 then 10 else 100)
    else if 2.25 < avg_voltage then
      (if m.gain = 100 then 10 else 1)
    else m.gain
  else m.gain

/-- Embeds `Fluorometer.convert_to_concentration` of main.py (lines 115–122):
3-point conversion only; no `else` branch, so a gain outside {1, 10, 100}
raises `UnboundLocalError` at the `return`. -/
def Fluor.convert_to_concentration (m : Fluor) (voltage : ℚ) : Except PyExc ℚ :=
  if m.gain = 1 then Except.ok (m.slope_1x * voltage * 1000 + m.offset_1x)
  else if m.gain = 10 then Except.ok (m.slope_10x * voltage * 1000 + m.offset_10x)
  else if m.gain = 100 then Except.ok (m.slope_100x * voltage * 1000 + m.offset_100x)
  else Except.error PyExc.unboundLocalError

/-- Embeds `Fluorometer.set_gain` of main.py (lines 142–148); same bit patterns as
fluorometer.py. -/
def Fluor.set_gain (gain : ℤ) : List Eff :=
  (if gain = 1 then [Eff.writeLines true true] else []) ++
  (if gain = 10 then [Eff.writeLines false true] else []) ++
  (if gain = 100 then [Eff.writeLines true false] else [])

/-- Embeds `Fluorometer.set_autogain` of main.py (lines 150–157); body identical to
the fluorometer.py version. -/
def Fluor.set_autogain (m : Fluor) (avg_voltage current_time : ℚ) : Fluor × List Eff :=
  let new_gain := m.determine_gain avg_voltage current_time
  if new_gain ≠ m.gain then
    ({ m with gain := new_gain, last_gain_change := current_time },
      Fluor.set_gain new_gain ++ [Eff.sleep gain_change_delay])
  else (m, [])

/-- A parsed GGA fix as `log_rho` consumes it (`gps.lat`, `gps.lon`, and the
optional `time` attribute). -/
structure Fix where
  lat : ℚ
  lon : ℚ
  nmea_time : Option String

/-- The external outcomes one acquisition cycle can observe: the voltage
read's result, the GPS configuration and read result, and whether each
fallible sink call raises when attempted. `now` is `time.time()`. -/
structure CycleEnv where
  read_voltage : Except PyExc ℚ
  gps_port : Option String
  gps_result : Option Fix
  gps_insert_ok : Bool
  log_info_ok : Bool
  csv_ok : Bool
  rho_insert_ok : Bool
  now : ℚ

/-- Embeds `log_rho` of main.py (lines 215–262): read the voltage and convert it
(neither call is inside a `try`, so their exceptions propagate and abort
the cycle); optionally read GPS and insert into the gps table inside its own
`try`/`except`; then, inside a single `try`, log to console, append to CSV
and insert into the measurement table — an exception at any of these three
jumps to the shared `except` clause, skipping the rest of the block; the
`finally` clause commits and runs `set_autogain`. Effects are recorded when
the corresponding call is attempted. -/
def log_rho (env : CycleEnv) (m : Fluor) : Except PyExc (Fluor × List Eff) :=
  match env.read_voltage with
  | Except.error e => Except.error e
  | Except.ok avg_voltage =>
    match m.convert_to_concentration avg_voltage with
    | Except.error e => Except.error e
    | Except.ok _concentration =>
      let gps : Option Fix := if env.gps_port.isSome then env.gps_result else none
      let gpsEffs : List Eff :=
        match gps with
        | some _ =>
          if env.gps_insert_ok then [Eff.gpsInsert] else [Eff.gpsInsert, Eff.logGpsError]
        | none => []
      let tryEffs : List Eff :=
        if env.log_info_ok = false then [Eff.logInfo, Eff.logRhoError]
        else if env.csv_ok = false then [Eff.logInfo, Eff.csvAppend, Eff.logRhoError]
        else if env.rho_insert_ok = false then
          [Eff.logInfo, Eff.csvAppend, Eff.rhoInsert, Eff.logRhoError]
        else [Eff.logInfo, Eff.csvAppend, Eff.rhoInsert]
      let ag := m.set_autogain avg_voltage env.now
      Except.ok (ag.1, gpsEffs ++ tryEffs ++ [Eff.commit] ++ ag.2)

/-- The effects one `log_rho` call performs (empty when the cycle aborts by
exception before reaching any sink). -/
def cycleEffs (env : CycleEnv) (m : Fluor) : List Eff :=
  match log_rho env m with
  | Except.ok p => p.2
  | Except.error _ => []

/-- Embeds `run_rho` of main.py (lines 264–269): registers the next tick with the
scheduler first, then runs `log_rho`; an exception from `log_rho` propagates
(and `sched.scheduler.run` re-raises it, ending the loop). -/
def run_rho (env : CycleEnv) (m : Fluor) : List Eff × Except PyExc (Fluor × List Eff) :=
  ([Eff.scheduleNext], log_rho env m)

end Main

/-- Did an `Except` computation return normally? -/
def exceptOk {ε α : Type} : Except ε α → Bool
  | Except.ok _ => true
  | Except.error _ => false

/-- The relational store: the set of table names it was initialized with. -/
structure Store where
  tables : List String

/-- The string-valued module globals of main.py that the database check can
see: the config binds the database path to `DB_PATH` and the measurement
table name to `RHO_TABLE` (lines 37–38). No assignment anywhere in main.py
binds the name `DB_TABLE`. -/
def mainGlobals (db_filename db_table : String) : List (String × String) :=
  [("DB_PATH", db_filename), ("RHO_TABLE", db_table)]

/-- Python global-name resolution over the module globals. -/
def resolveGlobal (globals : List (String × String)) (n : String) : Option String :=
  (globals.find? (fun p => p.1 = n)).map (fun p => p.2)

/-- Embeds `ensure_database_ready` of main.py (lines 180–188): inside a
`try`/`except sqlite3.OperationalError`, connect and run
`SELECT 1 FROM {DB_TABLE} LIMIT 1`. Building that f-string resolves the
global name `DB_TABLE`; an unbound name raises `NameError`, which the
`except` clause (catching only `OperationalError`) does not handle. If the
name did resolve, a missing table would raise `OperationalError`, caught and
turned into `False`, and an existing table would yield `True`. -/
def ensure_database_ready (db_filename db_table : String) (store : Store) :
    Except PyExc Bool :=
  match resolveGlobal (mainGlobals db_filename db_table) "DB_TABLE" with
  | none => Except.error PyExc.nameError
  | some t => if store.tables.contains t then Except.ok true else Except.ok false

/-- One `nmr.read()` outcome inside `read_GPS` (gps.py lines 7–22): a parsed
message with its `msgID`, a `(None, None)` result (serial timeout with no
data), or a raised exception. -/
inductive ReadEv where
  | msg (msgID : String)
  | timeout
  | exc
  deriving DecidableEq

/-- What `read_GPS` returns when it returns: a parsed GGA fix, or `None`
(the `except` clause). -/
inductive GpsOutcome where
  | fix (msgID : String)
  | failed
  deriving DecidableEq

/-- One iteration of the `while parsed_data is None or parsed_data.msgID !=
"GGA"` loop: `some` when the loop exits after this read, `none` when it
keeps looping. -/
def gpsStep : ReadEv → Option GpsOutcome
  | ReadEv.msg i => if i = "GGA" then some (GpsOutcome.fix i) else none
  | ReadEv.timeout => none
  | ReadEv.exc => some GpsOutcome.failed

/-- The `read_GPS` loop run over a finite prefix of the stream's read
outcomes: `some` when it returns within the prefix, `none` when it is still
looping after consuming the whole prefix. -/
def read_GPS_scan : List ReadEv → Option GpsOutcome
  | [] => none
  | e :: rest =>
    match gpsStep e with
    | some o => some o
    | none => read_GPS_scan rest

/-- Embeds `read_GPS` (gps.py lines 7–22) over a finite prefix of read outcomes:
a failure to open the serial port is caught and returns `None`; otherwise
the GGA scan loop runs. -/
def read_GPS_trace (open_ok : Bool) (events : List ReadEv) : Option GpsOutcome :=
  if open_ok then read_GPS_scan events else some GpsOutcome.failed

/-- The loop returns at exactly step `n` of the infinite stream `s`. -/
def terminatesAt (s : ℕ → ReadEv) (n : ℕ) : Prop :=
  (gpsStep (s n)).isSome = true ∧ ∀ m < n, gpsStep (s m) = none

/-- Embeds the legacy `Fluorimeter` object of
`src/fluorologger/fluorimeter.py`: single slope/offset calibration,
`gain_change_delay = 3`, gain state starting at ×1. -/
structure Fluorimeter where
  slope : ℚ
  offset : ℚ
  gain : ℤ
  last_gain_change : ℚ
  deriving DecidableEq

/-- Embeds `Fluorimeter.determine_gain` (fluorimeter.py lines 36–49). Unlike
the fluorometer.py/main.py versions there is no `new_gain = self.gain`
default assignment: when the settling guard fails — and also when the
voltage lies in the 0.15–2.25 mid-band — no branch assigns `new_gain`, and
`return new_gain` raises `UnboundLocalError`. -/
def Fluorimeter.determine_gain (m : Fluorimeter) (avg_voltage current_time : ℚ) :
    Except PyExc ℤ :=
  if gain_change_delay ≤ current_time - m.last_gain_change then
    if avg_voltage < 0.15 then
      Except.ok (if m.gain = 1 then 10 else 100)
    else if 2.25 < avg_voltage then
      Except.ok (if m.gain = 100 then 10 else 1)
    else Except.error PyExc.unboundLocalError
  else Except.error PyExc.unboundLocalError

/-- Embeds `Fluorimeter.set_gain` (fluorimeter.py lines 51–62): decide the
gain (any exception from `determine_gain` propagates); when the decided gain
differs, execute `self.gain = new_gain` and then evaluate
`self.last_gain_change = current_time` — but `current_time` is unbound in
this method (it was local to `determine_gain`), so a `NameError` aborts the
method after the gain mutation and before any digital-line write, timestamp
update, or settling sleep. Result: final object state, effects performed,
and the exception raised, if any. -/
def Fluorimeter.set_gain (m : Fluorimeter) (avg_voltage now : ℚ) :
    Fluorimeter × List Eff × Option PyExc :=
  match Fluorimeter.determine_gain m avg_voltage now with
  | Except.error e => (m, [], some e)
  | Except.ok new_gain =>
    if new_gain ≠ m.gain then
      ({ m with gain := new_gain }, [], some PyExc.nameError)
    else (m, [], none)

/-- C3 witness instance: `standardConcentration = 10`,
`standardVoltage = 1.0`, `standardGain = 10`, all blanks 0, current gain
×10, no 3-point parameters. -/
def F3w : Fluorometer :=
  { slope_1x := none, slope_10x := none, slope_100x := none
    offset_1x := none, offset_10x := none, offset_100x := none
    std_concentration := some 10, std_voltage := some 1, std_gain := some 10
    blank_1x := some 0, blank_10x := some 0, blank_100x := some 0
    autogain := true, gain := 10, last_gain_change := 0 }

/-- C4 counterexample instance: every StandardRatio parameter supplied, but
`std_concentration = 0` (falsy in Python), alongside a full set of truthy
slopes. -/
def cexF4 : Fluorometer :=
  { slope_1x := some 1, slope_10x := some 1, slope_100x := some 1
    offset_1x := some 0, offset_10x := some 0, offset_100x := some 0
    std_concentration := some 0, std_voltage := some 1, std_gain := some 10
    blank_1x := some 0, blank_10x := some 0, blank_100x := some 0
    autogain := true, gain := 1, last_gain_change := 0 }

/-- C5 counterexample: a cycle whose voltage read raises the DAQ error. -/
def cexEnv5 : Main.CycleEnv :=
  { read_voltage := Except.error PyExc.daqError
    gps_port := some "/dev/ttyUSB0", gps_result := some { lat := 41, lon := -70, nmea_time := some "120000" }
    gps_insert_ok := true, log_info_ok := true, csv_ok := true, rho_insert_ok := true
    now := 100 }

/-- Fluorometer state for the C5 counterexample. -/
def cexM5 : Main.Fluor :=
  { slope_1x := 1, slope_10x := 1, slope_100x := 1
    offset_1x := 0, offset_10x := 0, offset_100x := 0
    autogain := false, gain := 1, last_gain_change := 0 }

/-- C5 witness environment: same failing voltage read, GPS disabled. -/
def wEnv5 : Main.CycleEnv :=
  { read_voltage := Except.error PyExc.daqError
    gps_port := none, gps_result := none
    gps_insert_ok := true, log_info_ok := true, csv_ok := true, rho_insert_ok := true
    now := 7 }

/-- Fluorometer state for the C5 witness. -/
def wM5 : Main.Fluor :=
  { slope_1x := 2, slope_10x := 2, slope_100x := 2
    offset_1x := 0, offset_10x := 0, offset_100x := 0
    autogain := true, gain := 10, last_gain_change := 6 }

/-- C6 counterexample: a cycle where only the CSV append raises. -/
def cexEnv6 : Main.CycleEnv :=
  { read_voltage := Except.ok 1
    gps_port := some "/dev/ttyUSB0", gps_result := some { lat := 41, lon := -70, nmea_time := some "120000" }
    gps_insert_ok := true, log_info_ok := true, csv_ok := false, rho_insert_ok := true
    now := 100 }

/-- Fluorometer state for the C6 counterexample (autogain off, so the
trailing `set_autogain` is a no-op). -/
def cexM6 : Main.Fluor :=
  { slope_1x := 1, slope_10x := 1, slope_100x := 1
    offset_1x := 0, offset_10x := 0, offset_100x := 0
    autogain := false, gain := 1, last_gain_change := 0 }

/-- C6 witness environment: only the GPS-table insert raises. -/
def wEnv6 : Main.CycleEnv :=
  { read_voltage := Except.ok 1
    gps_port := some "/dev/ttyUSB0", gps_result := some { lat := 41, lon := -70, nmea_time := some "120000" }
    gps_insert_ok := false, log_info_ok := true, csv_ok := true, rho_insert_ok := true
    now := 100 }

/-- Fluorometer state for the C6 witness. -/
def wM6 : Main.Fluor :=
  { slope_1x := 1, slope_10x := 1, slope_100x := 1
    offset_1x := 0, offset_10x := 0, offset_100x := 0
    autogain := false, gain := 10, last_gain_change := 0 }

/-- C7 witness instance: autogain on, gain ×1, last change long past. -/
def wF7 : Fluorometer :=
  { slope_1x := none, slope_10x := none, slope_100x := none
    offset_1x := none, offset_10x := none, offset_100x := none
    std_concentration := none, std_voltage := none, std_gain := none
    blank_1x := none, blank_10x := none, blank_100x := none
    autogain := true, gain := 1, last_gain_change := 0 }

/-- C1: with autogain enabled and the settling delay elapsed, for every gain
in {1, 10, 100}: a voltage below 0.15 steps the gain one level up
(saturating at 100), a voltage above 2.25 steps it one level down
(saturating at 1), and a voltage in [0.15, 2.25] leaves it unchanged. -/
theorem determine_gain_threshold_spec (f : Fluorometer) (v now : ℚ)
    (hg : f.gain = 1 ∨ f.gain = 10 ∨ f.gain = 100)
    (ha : f.autogain = true)
    (hs : 3 ≤ now - f.last_gain_change) :
    (v < 0.15 → f.determine_gain v now = gainUp f.gain) ∧
    (2.25 < v → f.determine_gain v now = gainDown f.gain) ∧
    (0.15 ≤ v → v ≤ 2.25 → f.determine_gain v now = f.gain) := by
  unfold Fluorometer.determine_gain gain_change_delay
  rw [ha]
  refine ⟨fun hv => ?_, fun hv => ?_, fun hv1 hv2 => ?_⟩
  · rcases hg with h | h | h <;>
      simp [h, hs, hv, gainUp]
  · have hv15 : ¬ (v < 0.15) := by norm_num; linarith
    rcases hg with h | h | h <;>
      simp [h, hs, hv, hv15, gainDown]
  · simp [hs, not_lt.mpr hv1, not_lt.mpr hv2]

/-- Witness for C1 at a concrete input: gain 1, voltage 0.1 V, settled. -/
theorem determine_gain_threshold_spec_witness :
    Fluorometer.determine_gain
      ⟨none, none, none, none, none, none, none, none, none, none, none, none,
        true, 1, 0⟩ (1/10) 5 = gainUp 1 := by
  have h := determine_gain_threshold_spec
    ⟨none, none, none, none, none, none, none, none, none, none, none, none,
      true, 1, 0⟩ (1/10) 5 (Or.inl rfl) rfl (by norm_num)
  exact h.1 (by norm_num)

/-- Settling lemma for the fluorometer.py/main.py `determine_gain` body:
within the 3-second window after the last gain change it returns the current
gain unchanged, for every voltage and every state. -/
theorem determine_gain_settling (f : Fluorometer) (v now : ℚ)
    (h : now < f.last_gain_change + 3) :
    f.determine_gain v now = f.gain := by
  unfold Fluorometer.determine_gain gain_change_delay
  have h3 : ¬ ((3 : ℚ) ≤ now - f.last_gain_change) := by linarith
  by_cases ha : f.autogain = false <;> simp [ha, h3]

/-- Concrete instance of the settling lemma: transition at t0 = 10,
decision at now = 12, saturated-low voltage. -/
theorem determine_gain_settling_witness :
    Fluorometer.determine_gain
      ⟨none, none, none, none, none, none, none, none, none, none, none, none,
        true, 10, 10⟩ 0 12 = 10 := by
  have h := determine_gain_settling
    ⟨none, none, none, none, none, none, none, none, none, none, none, none,
      true, 10, 10⟩ 0 12 (by norm_num)
  exact h

/-- Dispatch lemma: `convert_to_concentration` dispatches exactly as `selected_model`
says: same conditions, same order. -/
theorem convert_matches_selected_model (f : Fluorometer) (v : ℚ) :
    f.convert_to_concentration v =
      match f.selected_model with
      | Except.ok CalModel.turner => f.convert_to_conc_turner v
      | Except.ok CalModel.threePoint => f.convert_to_concentration_3pt v
      | Except.error e => Except.error e := by
  unfold Fluorometer.convert_to_concentration Fluorometer.selected_model
  split_ifs <;> rfl

/-- C3: for every voltage and gain in {1, 10, 100} (and standard gain in
{1, 10, 100}), the standard-ratio conversion returns
`(v - blank[gain]) / gain * stdConcentration / (stdVoltage - blank[stdGain]) / stdGain`. -/
theorem convert_turner_formula (f : Fluorometer) (v sc sv sg b1 b10 b100 : ℚ)
    (hsc : f.std_concentration = some sc) (hsv : f.std_voltage = some sv)
    (hsg : f.std_gain = some sg)
    (hb1 : f.blank_1x = some b1) (hb10 : f.blank_10x = some b10)
    (hb100 : f.blank_100x = some b100)
    (hg : f.gain = 1 ∨ f.gain = 10 ∨ f.gain = 100)
    (hsgv : sg = 1 ∨ sg = 10 ∨ sg = 100) :
    f.convert_to_conc_turner v =
      Except.ok ((v - blankFor b1 b10 b100 (f.gain : ℚ)) / (f.gain : ℚ) * sc /
        (sv - blankFor b1 b10 b100 sg) / sg) := by
  unfold Fluorometer.convert_to_conc_turner
  rcases hsgv with hs | hs | hs <;> subst hs <;>
    rcases hg with h | h | h <;>
    simp only [hsc, hsv, hsg, hb1, hb10, hb100, h, blankFor] <;>
    norm_num

/-- Witness for C3: the spec's worked example, `convert(1.0, 10) = 0.1` with
`standardConcentration = 10`, `standardVoltage = 1.0`, `standardGain = 10`,
zero blanks. -/
theorem convert_turner_formula_witness :
    Fluorometer.convert_to_conc_turner F3w 1 = Except.ok (1/10 : ℚ) := by
  have h := convert_turner_formula F3w 1 10 1 10 0 0 0 rfl rfl rfl rfl rfl rfl
    (Or.inr (Or.inl rfl)) (Or.inr (Or.inl rfl))
  rw [h]
  norm_num [blankFor, F3w]

/-- C4 counterexample: an instance with every StandardRatio parameter
supplied — but `std_concentration = 0`, which is falsy — and truthy slopes is
silently routed to the ThreePoint model. -/
theorem selected_model_cex :
    stdRatioFull cexF4 = true ∧
    Fluorometer.selected_model cexF4 = Except.ok CalModel.threePoint := by
  constructor
  · rfl
  · simp [Fluorometer.selected_model, cexF4, truthy]

/-- C4 amended: the StandardRatio (turner) conversion is selected iff
`std_concentration` and `std_voltage` are both truthy (present and nonzero;
`std_gain` and the blanks are not consulted); otherwise ThreePoint is
selected iff the three slopes are all truthy (offsets are not consulted);
otherwise conversion raises `ValueError`. -/
theorem selected_model_amended (f : Fluorometer) :
    (f.selected_model = Except.ok CalModel.turner ↔
      (truthy f.std_concentration && truthy f.std_voltage) = true) ∧
    (f.selected_model = Except.ok CalModel.threePoint ↔
      (truthy f.std_concentration && truthy f.std_voltage) = false ∧
      (truthy f.slope_1x && truthy f.slope_10x && truthy f.slope_100x) = true) ∧
    (f.selected_model = Except.error PyExc.valueError ↔
      (truthy f.std_concentration && truthy f.std_voltage) = false ∧
      (truthy f.slope_1x && truthy f.slope_10x && truthy f.slope_100x) = false) := by
  unfold Fluorometer.selected_model
  split_ifs with h1 h2 <;> simp_all

/-- C5 counterexample: with a failing voltage read, `log_rho` propagates the
DAQ exception — no sample with null voltage is built and no sink write,
commit, or gain step runs, contrary to the claimed continue-with-nulls
behavior. -/
theorem log_rho_read_failure_cex :
    Main.log_rho cexEnv5 cexM5 = Except.error PyExc.daqError := rfl

/-- C5 amended: the voltage read is not wrapped in any `try`; a hardware
exception from it propagates out of `log_rho`, aborting the whole cycle
before any sink is attempted. -/
theorem log_rho_read_failure (env : Main.CycleEnv) (m : Main.Fluor) (e : PyExc)
    (h : env.read_voltage = Except.error e) :
    Main.log_rho env m = Except.error e := by
  unfold Main.log_rho
  rw [h]

/-- Witness for the amended C5 at a concrete failing environment. -/
theorem log_rho_read_failure_witness :
    Main.log_rho wEnv5 wM5 = Except.error PyExc.daqError :=
  log_rho_read_failure wEnv5 wM5 PyExc.daqError rfl

/-- The trailing `set_autogain` call performs only digital-line writes and
sleeps, never a measurement-table insert. -/
theorem rhoInsert_notin_set_autogain (m : Main.Fluor) (v now : ℚ) :
    Eff.rhoInsert ∉ (Main.Fluor.set_autogain m v now).2 := by
  unfold Main.Fluor.set_autogain Main.Fluor.set_gain
  by_cases h : m.determine_gain v now ≠ m.gain
  · simp only [if_pos h]
    split_ifs <;> simp
  · simp [h]

/-- C6 counterexample: a cycle in which only the CSV append raises. The
exception jumps to the shared `except` clause, so the measurement-table
insert of the same cycle is never attempted. -/
theorem log_rho_csv_failure_cex :
    Main.log_rho cexEnv6 cexM6 =
      Except.ok (cexM6,
        [Eff.gpsInsert, Eff.logInfo, Eff.csvAppend, Eff.logRhoError, Eff.commit]) ∧
    Eff.rhoInsert ∉
      [Eff.gpsInsert, Eff.logInfo, Eff.csvAppend, Eff.logRhoError, Eff.commit] := by
  exact ⟨rfl, by simp⟩

/-- C6 amended: the GPS-table insert is isolated in its own `try`/`except`
(its failure stops nothing else), but the console log, CSV append and
measurement-table insert share a single `try` block: each is attempted only
if the ones before it succeeded, so a CSV failure skips the
measurement-table insert; the `finally` commit always runs. -/
theorem log_rho_sink_isolation (env : Main.CycleEnv) (m : Main.Fluor) (v : ℚ)
    (hv : env.read_voltage = Except.ok v)
    (hg : m.gain = 1 ∨ m.gain = 10 ∨ m.gain = 100) :
    exceptOk (Main.log_rho env m) = true ∧
    (env.gps_port.isSome = true → env.gps_result.isSome = true →
      Eff.gpsInsert ∈ Main.cycleEffs env m) ∧
    Eff.logInfo ∈ Main.cycleEffs env m ∧
    (env.log_info_ok = true → Eff.csvAppend ∈ Main.cycleEffs env m) ∧
    (env.log_info_ok = true → env.csv_ok = true →
      Eff.rhoInsert ∈ Main.cycleEffs env m) ∧
    (env.csv_ok = false → Eff.rhoInsert ∉ Main.cycleEffs env m) ∧
    Eff.commit ∈ Main.cycleEffs env m := by
  have hc : ∃ c, Main.Fluor.convert_to_concentration m v = Except.ok c := by
    rcases hg with h | h | h
    · exact ⟨m.slope_1x * v * 1000 + m.offset_1x,
        by simp [Main.Fluor.convert_to_concentration, h]⟩
    · exact ⟨m.slope_10x * v * 1000 + m.offset_10x,
        by simp [Main.Fluor.convert_to_concentration, h]⟩
    · exact ⟨m.slope_100x * v * 1000 + m.offset_100x,
        by simp [Main.Fluor.convert_to_concentration, h]⟩
  rcases hc with ⟨c, hc⟩
  have hno := rhoInsert_notin_set_autogain m v env.now
  cases hp : env.gps_port <;> cases hr : env.gps_result <;>
    cases hgi : env.gps_insert_ok <;> cases hli : env.log_info_ok <;>
    cases hcsv : env.csv_ok <;> cases hri : env.rho_insert_ok <;>
    simp_all [Main.cycleEffs, Main.log_rho, exceptOk]

/-- Witness for the amended C6: only the GPS-table insert raises; the
console log, CSV append, measurement insert and commit are all still
attempted. -/
theorem log_rho_sink_isolation_witness :
    exceptOk (Main.log_rho wEnv6 wM6) = true ∧
    (wEnv6.gps_port.isSome = true → wEnv6.gps_result.isSome = true →
      Eff.gpsInsert ∈ Main.cycleEffs wEnv6 wM6) ∧
    Eff.logInfo ∈ Main.cycleEffs wEnv6 wM6 ∧
    (wEnv6.log_info_ok = true → Eff.csvAppend ∈ Main.cycleEffs wEnv6 wM6) ∧
    (wEnv6.log_info_ok = true → wEnv6.csv_ok = true →
      Eff.rhoInsert ∈ Main.cycleEffs wEnv6 wM6) ∧
    (wEnv6.csv_ok = false → Eff.rhoInsert ∉ Main.cycleEffs wEnv6 wM6) ∧
    Eff.commit ∈ Main.cycleEffs wEnv6 wM6 :=
  log_rho_sink_isolation wEnv6 wM6 1 rfl (Or.inr (Or.inl rfl))

/-- When `determine_gain` decides a change, the decided value is literally
one of the constants 10, 100, or 1 from the source, hence a valid level. -/
theorem determine_gain_changed_cases (f : Fluorometer) (v now : ℚ)
    (h : f.determine_gain v now ≠ f.gain) :
    f.determine_gain v now = 1 ∨ f.determine_gain v now = 10 ∨
      f.determine_gain v now = 100 := by
  unfold Fluorometer.determine_gain at h ⊢
  split_ifs at h ⊢ <;>
    first
    | exact absurd rfl h
    | norm_num

/-- Apply-behavior lemma for fluorometer.py's `set_autogain`: when the
decided gain equals the current gain it is a no-op — state unchanged, no
digital-line write, no settling sleep; when it differs, the lines are driven
with the pattern from the fixed lookup table, the gain and last-change time
are updated, and the caller sleeps for the 3-second settling delay. -/
theorem set_autogain_spec (f : Fluorometer) (v now : ℚ) :
    (f.determine_gain v now = f.gain → f.set_autogain v now = (f, [])) ∧
    (f.determine_gain v now ≠ f.gain →
      ∃ p : Bool × Bool,
        gainLines (f.determine_gain v now) = some p ∧
        f.set_autogain v now =
          ({ f with gain := f.determine_gain v now, last_gain_change := now },
            [Eff.writeLines p.1 p.2, Eff.sleep 3])) := by
  constructor
  · intro h
    unfold Fluorometer.set_autogain
    simp [h]
  · intro h
    rcases determine_gain_changed_cases f v now h with h1 | h1 | h1
    · refine ⟨(true, true), by rw [h1]; rfl, ?_⟩
      have h2 : (1 : ℤ) ≠ f.gain := h1 ▸ h
      unfold Fluorometer.set_autogain Fluorometer.set_gain
      simp [h1, h2, gain_change_delay]
    · refine ⟨(false, true), by rw [h1]; rfl, ?_⟩
      have h2 : (10 : ℤ) ≠ f.gain := h1 ▸ h
      unfold Fluorometer.set_autogain Fluorometer.set_gain
      simp [h1, h2, gain_change_delay]
    · refine ⟨(true, false), by rw [h1]; rfl, ?_⟩
      have h2 : (100 : ℤ) ≠ f.gain := h1 ▸ h
      unfold Fluorometer.set_autogain Fluorometer.set_gain
      simp [h1, h2, gain_change_delay]

/-- Concrete instance of the apply-behavior lemma: gain ×1, voltage 0.1 V,
settled — the decided gain is ×10, the lines are driven low/high, and the
settling sleep happens. -/
theorem set_autogain_spec_witness :
    Fluorometer.set_autogain wF7 (1/10) 10 =
      ({ wF7 with gain := 10, last_gain_change := 10 },
        [Eff.writeLines false true, Eff.sleep 3]) := by
  have hd : Fluorometer.determine_gain wF7 (1/10) 10 = 10 := by
    norm_num [Fluorometer.determine_gain, wF7, gain_change_delay]
  have h := (set_autogain_spec wF7 (1/10) 10).2 (by rw [hd]; norm_num [wF7])
  rcases h with ⟨p, hp, he⟩
  rw [hd] at hp he
  have h2 : gainLines 10 = some (false, true) := by norm_num [gainLines]
  have hpv : (false, true) = p := Option.some.inj (h2 ▸ hp)
  rw [← hpv] at he
  exact he

/-- C8 (code bug): `ensure_database_ready` always raises `NameError` —
the interpolated global `DB_TABLE` is unbound (the config value is bound to
`RHO_TABLE`), and the `except sqlite3.OperationalError` clause does not
catch `NameError` — so the check can never succeed, no matter how the store
was initialized. -/
theorem ensure_database_ready_always_nameError
    (db_filename db_table : String) (store : Store) :
    ensure_database_ready db_filename db_table store =
      Except.error PyExc.nameError := rfl

/-- C9 counterexample: on the input stream whose reads always time out with
no data, the GGA loop of `read_GPS` never returns — there is no overall
timeout bounding the read. -/
theorem read_GPS_no_overall_timeout_cex :
    ¬ ∃ n : ℕ, terminatesAt (fun _ => ReadEv.timeout) n := by
  rintro ⟨n, h1, -⟩
  simp [gpsStep] at h1

/-- C9 amended: `read_GPS` returns null when opening the port fails; it is
still looping after arbitrarily many GGA-free reads (only each individual
serial read has a 1-second timeout — there is no bound on the whole call);
it returns the fix when a GGA sentence finally arrives, and returns null
when a read raises. -/
theorem read_GPS_trace_spec (events : List ReadEv) (n : ℕ) :
    read_GPS_trace false events = some GpsOutcome.failed ∧
    read_GPS_trace true (List.replicate n ReadEv.timeout) = none ∧
    read_GPS_trace true (List.replicate n ReadEv.timeout ++ [ReadEv.msg "GGA"]) =
      some (GpsOutcome.fix "GGA") ∧
    read_GPS_trace true (List.replicate n ReadEv.timeout ++ [ReadEv.exc]) =
      some GpsOutcome.failed := by
  refine ⟨rfl, ?_, ?_, ?_⟩ <;>
    induction n with
    | zero => simp [read_GPS_trace, read_GPS_scan, gpsStep]
    | succ k ih =>
      simpa [read_GPS_trace, read_GPS_scan, gpsStep, List.replicate_succ] using ih

/-- C10: `set_gain` with a value outside {1, 10, 100} matches none of the
three `if` statements: no digital-line write happens, nothing is raised (the
function is total), and no instance state is touched (the method reads and
writes none). -/
theorem set_gain_invalid_noop (g : ℤ)
    (h1 : g ≠ 1) (h2 : g ≠ 10) (h3 : g ≠ 100) :
    Fluorometer.set_gain g = [] := by
  simp [Fluorometer.set_gain, h1, h2, h3]

/-- Witness for C10 at the concrete invalid gain 5. -/
theorem set_gain_invalid_noop_witness : Fluorometer.set_gain 5 = [] :=
  set_gain_invalid_noop 5 (by decide) (by decide) (by decide)

/-- C2 (code bug in the legacy variant): within the settling window the
fluorometer.py/main.py `determine_gain` returns the current gain unchanged
for every voltage, as claimed — but the fluorimeter.py
`Fluorimeter.determine_gain`, also cited by the claim, never assigns
`new_gain` there and raises `UnboundLocalError` instead of returning the
gain. -/
theorem determine_gain_settling_spec (f : Fluorometer) (fi : Fluorimeter)
    (v v2 now now2 : ℚ)
    (h : now < f.last_gain_change + 3)
    (h2 : now2 < fi.last_gain_change + 3) :
    f.determine_gain v now = f.gain ∧
    Fluorimeter.determine_gain fi v2 now2 = Except.error PyExc.unboundLocalError := by
  refine ⟨determine_gain_settling f v now h, ?_⟩
  unfold Fluorimeter.determine_gain gain_change_delay
  have h3 : ¬ ((3 : ℚ) ≤ now2 - fi.last_gain_change) := by linarith
  simp [h3]

/-- Witness for C2 at concrete inputs: transition at t0 = 10, decision at
now = 12, voltage 0 — the fluorometer.py version returns the unchanged gain
×10, the fluorimeter.py version raises `UnboundLocalError`. -/
theorem determine_gain_settling_spec_witness :
    Fluorometer.determine_gain
      ⟨none, none, none, none, none, none, none, none, none, none, none, none,
        true, 10, 10⟩ 0 12 = 10 ∧
    Fluorimeter.determine_gain ⟨1, 0, 10, 10⟩ 0 12 =
      Except.error PyExc.unboundLocalError :=
  determine_gain_settling_spec
    ⟨none, none, none, none, none, none, none, none, none, none, none, none,
      true, 10, 10⟩ ⟨1, 0, 10, 10⟩ 0 0 12 12 (by norm_num) (by norm_num)

/-- C7 (code bug in the legacy variant): fluorometer.py's `set_autogain`
behaves exactly as claimed — a no-op with no effect when the decided gain
equals the current one, and on a change a fixed-lookup line write, gain and
last-change-time update, and 3-second settling sleep. The fluorimeter.py
`Fluorimeter.set_gain`, also cited by the claim, is still a no-op in the
equal case, but in the change case it mutates the gain and then raises
`NameError` on the unbound `current_time`: no digital-line write, no
last-change-time update, no settling sleep. -/
theorem set_gain_apply_spec (f : Fluorometer) (v now : ℚ)
    (fi : Fluorimeter) (v2 now2 : ℚ) (g : ℤ) :
    (f.determine_gain v now = f.gain → f.set_autogain v now = (f, [])) ∧
    (f.determine_gain v now ≠ f.gain →
      ∃ p : Bool × Bool,
        gainLines (f.determine_gain v now) = some p ∧
        f.set_autogain v now =
          ({ f with gain := f.determine_gain v now, last_gain_change := now },
            [Eff.writeLines p.1 p.2, Eff.sleep 3])) ∧
    (Fluorimeter.determine_gain fi v2 now2 = Except.ok g → g = fi.gain →
      Fluorimeter.set_gain fi v2 now2 = (fi, [], none)) ∧
    (Fluorimeter.determine_gain fi v2 now2 = Except.ok g → g ≠ fi.gain →
      Fluorimeter.set_gain fi v2 now2 =
        ({ fi with gain := g }, [], some PyExc.nameError)) := by
  refine ⟨(set_autogain_spec f v now).1, (set_autogain_spec f v now).2, ?_, ?_⟩
  · intro hok heq
    unfold Fluorimeter.set_gain
    rw [hok]
    simp [heq]
  · intro hok hne
    unfold Fluorimeter.set_gain
    rw [hok]
    simp [hne]

/-- Witness for C7 at a concrete changing input (gain ×1, voltage 0.1 V,
settled, decided gain ×10): fluorometer.py's `set_autogain` performs the
full claimed apply, while fluorimeter.py's `set_gain` mutates the gain and
raises `NameError` with no line write, no timestamp update and no sleep. -/
theorem set_gain_apply_spec_witness :
    Fluorometer.set_autogain wF7 (1/10) 10 =
      ({ wF7 with gain := 10, last_gain_change := 10 },
        [Eff.writeLines false true, Eff.sleep 3]) ∧
    Fluorimeter.set_gain ⟨1, 0, 1, 0⟩ (1/10) 10 =
      ({ (⟨1, 0, 1, 0⟩ : Fluorimeter) with gain := 10 }, [],
        some PyExc.nameError) := by
  have hd : Fluorometer.determine_gain wF7 (1/10) 10 = 10 := by
    norm_num [Fluorometer.determine_gain, wF7, gain_change_delay]
  have hfi : Fluorimeter.determine_gain ⟨1, 0, 1, 0⟩ (1/10) 10 = Except.ok 10 := by
    norm_num [Fluorimeter.determine_gain, gain_change_delay]
  have h := set_gain_apply_spec wF7 (1/10) 10 ⟨1, 0, 1, 0⟩ (1/10) 10 10
  constructor
  · have hb := h.2.1 (by rw [hd]; norm_num [wF7])
    rcases hb with ⟨p, hp, he⟩
    rw [hd] at hp he
    have h2 : gainLines 10 = some (false, true) := by norm_num [gainLines]
    have hpv : (false, true) = p := Option.some.inj (h2 ▸ hp)
    rw [← hpv] at he
    exact he
  · exact h.2.2.2 hfi (by decide)
